import Mathlib

/-!
Shallow embedding of `src/bin/cargo/commands/query.rs`: the interactive
`cargo query` subcommand.  Pure Rust functions become Lean functions;
fallible Rust code (both `CargoResult` errors and `unimplemented!` panics)
becomes `Except Failure`; the external skim picker (`Skim::run_with`) is a
function parameter supplied by the caller of `fuzzy_choose` / `exec`.
-/

namespace CargoQuery

/-- Failure channel of one invocation: a Rust panic (from the
`unimplemented!` macro) or an `anyhow` error value, each carrying its
message. -/
inductive Failure where
  | Panic (msg : String)
  | Error (msg : String)
deriving DecidableEq, Repr

/-- The `QueryTargets` enum: the closed set of query categories. -/
inductive QueryTargets where
  | Binaries
  | Examples
  | Tests
  | Benches
  | Features
  | Profile
deriving DecidableEq, Repr

/-- `impl AsRef<str> for QueryTargets`. -/
def QueryTargets.as_ref : QueryTargets → String
  | .Binaries => "binaries"
  | .Examples => "examples"
  | .Tests => "tests"
  | .Benches => "benches"
  | .Features => "features"
  | .Profile => "profile"

/-- `impl FromStr for QueryTargets`: matches the six exact lowercase tokens
and fails on everything else. -/
def QueryTargets.from_str (s : String) : Except Failure QueryTargets :=
  match s with
  | "tests" => .ok .Tests
  | "binaries" => .ok .Binaries
  | "examples" => .ok .Examples
  | "benches" => .ok .Benches
  | "features" => .ok .Features
  | "profile" => .ok .Profile
  | _ => .error (.Error ("Unknown type " ++ s))

/-- Modelled from the spec: `cargo::core::Target` is cargo library code not
under src/.  Per the glossary, a target is a named buildable unit with a
kind classification (binary, example, test, benchmark, or other). -/
inductive TargetKind where
  | Bin
  | Example
  | Test
  | Bench
  | Lib
deriving DecidableEq, Repr

/-- Modelled from the spec: a workspace target, a named buildable unit with
a kind classification. -/
structure Target where
  name : String
  kind : TargetKind
deriving DecidableEq, Repr

/-- Modelled from the spec: `Target::is_bin`. -/
def Target.is_bin (t : Target) : Bool := t.kind == .Bin

/-- Modelled from the spec: `Target::is_example`. -/
def Target.is_example (t : Target) : Bool := t.kind == .Example

/-- Modelled from the spec: `Target::is_test`. -/
def Target.is_test (t : Target) : Bool := t.kind == .Test

/-- Modelled from the spec: `Target::is_bench`. -/
def Target.is_bench (t : Target) : Bool := t.kind == .Bench

/-- Modelled from the spec: `cargo::core::profiles::Profiles`, the profile
resolution context built against the workspace and the requested profile;
it knows the set of configured profile names. -/
structure Profiles where
  all : List String
deriving DecidableEq, Repr

/-- Modelled from the spec: `Profiles::list_all` lists every profile name
the resolution context knows about. -/
def Profiles.list_all (p : Profiles) : List String := p.all

/-- Modelled from the spec: the workspace metadata one invocation loads,
read-only — its target list in native enumeration order, and the profile
resolution context obtained from `Profiles::new`. -/
structure Workspace where
  targets : List Target
  profiles : Profiles
deriving DecidableEq, Repr

/-- Modelled from the spec: `cargo::util::get_available_targets` is cargo
library code not under src/.  Per section 4.2 it filters the full
workspace target list through the membership predicate, preserving the
native enumeration order, and returns display names only. -/
def get_available_targets (pred : Target → Bool) (ws : Workspace) : List String :=
  (ws.targets.filter pred).map Target.name

/-- `fn get_available_profiles(profs: &Profiles) -> CargoResult<Vec<&str>>`. -/
def get_available_profiles (profs : Profiles) : Except Failure (List String) :=
  .ok profs.list_all

/-- `QueryTargets::as_target_pred`: the category membership predicate,
a panic (`unimplemented!`) for Features and Profile. -/
def QueryTargets.as_target_pred (q : QueryTargets) : Except Failure (Target → Bool) :=
  match q with
  | .Binaries => .ok Target.is_bin
  | .Tests => .ok Target.is_test
  | .Benches => .ok Target.is_bench
  | .Examples => .ok Target.is_example
  | .Features | .Profile =>
      .error (.Panic ("You should not be filtering build targets with " ++ q.as_ref))

/-- `QueryTargets::allows_multi`: whether the user can choose multiple
options, true only for Features. -/
def QueryTargets.allows_multi : QueryTargets → Bool
  | .Binaries | .Examples | .Tests | .Benches | .Profile => false
  | .Features => true

/-- The `MySkimOptions` struct handed to the skim session. -/
structure MySkimOptions where
  allows_multi : Bool
  prompt : String
  input : String
  abs_height : Nat
deriving DecidableEq, Repr

/-- `QueryTargets::make_skim_options`: enumerate the candidates for the
category and package them with the session configuration.  Features hits
`unimplemented!`. -/
def QueryTargets.make_skim_options (q : QueryTargets) (ws : Workspace) :
    Except Failure MySkimOptions := do
  let targets ← match q with
    | .Binaries | .Examples | .Tests | .Benches => do
        let pred ← q.as_target_pred
        pure (get_available_targets pred ws)
    | .Profile => get_available_profiles ws.profiles
    | .Features => Except.error (.Panic "not implemented")
  pure { allows_multi := q.allows_multi
         prompt := q.as_ref
         input := String.intercalate "\n" targets
         abs_height := targets.length * 3 }

/-- The `CompileMode` values the command can imply. -/
inductive CompileMode where
  | Build
  | Test
  | Bench
deriving DecidableEq, Repr

/-- `impl From<&QueryTargets> for CompileMode`: the implied build mode,
a panic (`unimplemented!`) for Features. -/
def CompileMode.from_query (q : QueryTargets) : Except Failure CompileMode :=
  match q with
  | .Binaries | .Examples => .ok .Build
  | .Tests => .ok .Test
  | .Benches => .ok .Bench
  | .Profile => .ok .Build
  | .Features => .error (.Panic "not implemented")

/-- The skim events the command inspects: `EvActAccept` carries an optional
argument; every other final event is treated alike, so non-accept events
are represented by an abort plus a generic tag. -/
inductive SkimEvent where
  | EvActAccept (arg : Option String)
  | EvActAbort
  | EvOther (tag : String)
deriving DecidableEq, Repr

/-- The part of `SkimOutput` the command reads: the final event and the
selected items (a skim item is consumed only through its display text). -/
structure SkimOutput where
  final_event : SkimEvent
  selected_items : List String
deriving DecidableEq, Repr

/-- `fn fuzzy_choose`: build the options, run the external picker, and map
its result.  `Skim::run_with` is external, so it is a parameter; `None`
from it becomes the internal skim error, a non-accept final event becomes
`Ok(vec![])` (per the TODO in the source, not an abort error). -/
def fuzzy_choose (ws : Workspace) (query_target : QueryTargets)
    (run_with : MySkimOptions → Option SkimOutput) :
    Except Failure (List String) := do
  let options ← query_target.make_skim_options ws
  let skim_res ← match run_with options with
    | some res => Except.ok res
    | none => Except.error (Failure.Error "Internal skim error")
  match skim_res.final_event with
  | .EvActAccept _ => pure skim_res.selected_items
  | _ => pure []

/-- `fn convert_selected_items_to_string`: comma-join of the item texts. -/
def convert_selected_items_to_string (items : List String) : Except Failure String :=
  .ok (String.intercalate "," items)

/-- `fn exec`: the whole invocation after argument parsing.  The compile
options are computed first (this is where `CompileMode::from` runs), then
`fuzzy_choose`, then the conversion; on success the returned string is
exactly what `print_ansi_stdout` writes to stdout. -/
def exec (ws : Workspace) (query_target : QueryTargets)
    (run_with : MySkimOptions → Option SkimOutput) : Except Failure String := do
  let _compile_mode ← CompileMode.from_query query_target
  let items ← fuzzy_choose ws query_target run_with
  let stdout := match convert_selected_items_to_string items with
    | .ok it => it
    | .error _ => ""
  pure stdout

/-- A small concrete workspace used by witnesses: two binary targets and
three configured profiles. -/
def wsEx : Workspace :=
  { targets := [⟨"server", .Bin⟩, ⟨"client", .Bin⟩]
    profiles := ⟨["dev", "release", "test"]⟩ }

/-- The options `make_skim_options` produces for Binaries on `wsEx`. -/
def optsBin : MySkimOptions :=
  { allows_multi := false
    prompt := "binaries"
    input := "server\nclient"
    abs_height := 6 }

/-- Computation rule for `make_skim_options`: per category it is the
enumeration result mapped into the option record. -/
theorem make_skim_options_eq (q : QueryTargets) (ws : Workspace) :
    q.make_skim_options ws =
      (match q with
        | .Binaries => Except.ok (get_available_targets Target.is_bin ws)
        | .Examples => Except.ok (get_available_targets Target.is_example ws)
        | .Tests => Except.ok (get_available_targets Target.is_test ws)
        | .Benches => Except.ok (get_available_targets Target.is_bench ws)
        | .Profile => Except.ok ws.profiles.list_all
        | .Features => Except.error (Failure.Panic "not implemented")).map
        (fun targets =>
          { allows_multi := q.allows_multi
            prompt := q.as_ref
            input := String.intercalate "\n" targets
            abs_height := targets.length * 3 }) := by
  cases q <;> rfl

/-- Claim C1, evaluation at the failing input: when the skim session ends
with the abort event, `fuzzy_choose` returns `Ok` of the empty list and
`exec` terminates as a success whose stdout is the empty string — it does
not fail with a cancellation error, contradicting the claim (the source
carries a TODO to bring back the abort error). -/
theorem C1_abort_is_empty_success :
    fuzzy_choose wsEx .Binaries (fun _ => some ⟨.EvActAbort, []⟩) = .ok [] ∧
    exec wsEx .Binaries (fun _ => some ⟨.EvActAbort, []⟩) = .ok "" :=
  ⟨rfl, rfl⟩

/-- Claim C2, counterexample: Binaries is single-select, yet the result
mapper given two chosen strings succeeds with their comma-join instead of
failing with an invariant violation. -/
theorem C2_counterexample :
    QueryTargets.Binaries.allows_multi = false ∧
    convert_selected_items_to_string ["a", "b"] = .ok "a,b" :=
  ⟨rfl, rfl⟩

/-- Claim C2, amended: the result mapper performs no cardinality check.
Even when a single-select category session yields more than one chosen
string, the invocation succeeds and prints every string comma-joined; no
invariant-violation failure exists in the code. -/
theorem C2_no_cardinality_check (ws : Workspace) (q : QueryTargets)
    (items : List String) (hq : q.allows_multi = false)
    (hok : ∃ o, q.make_skim_options ws = .ok o) (_hlen : 1 < items.length) :
    exec ws q (fun _ => some ⟨.EvActAccept none, items⟩)
      = .ok (String.intercalate "," items) := by
  obtain ⟨o, ho⟩ := hok
  have hmode : ∃ m, CompileMode.from_query q = .ok m := by
    cases q
    case Features => exact absurd hq (by simp [QueryTargets.allows_multi])
    all_goals exact ⟨_, rfl⟩
  obtain ⟨m, hm⟩ := hmode
  have hfc : fuzzy_choose ws q (fun _ => some ⟨.EvActAccept none, items⟩)
      = .ok items := by
    unfold fuzzy_choose
    rw [ho]
    rfl
  unfold exec
  rw [hm, hfc]
  rfl

/-- Claim C2, witness for the amended theorem at a concrete input. -/
theorem C2_witness :
    QueryTargets.Binaries.allows_multi = false ∧
    (∃ o, QueryTargets.Binaries.make_skim_options wsEx = .ok o) ∧
    1 < (["a", "b"] : List String).length ∧
    exec wsEx .Binaries (fun _ => some ⟨.EvActAccept none, ["a", "b"]⟩)
      = .ok "a,b" :=
  ⟨rfl, ⟨optsBin, rfl⟩, by decide,
    C2_no_cardinality_check wsEx .Binaries ["a", "b"] rfl ⟨optsBin, rfl⟩ (by decide)⟩

/-- Claim C3: for Features the invocation fails before the picker could
run — the result is the `unimplemented!` failure (the code realisation of
the unsupported-category error), it does not depend on the picker at all,
and `make_skim_options` for Features fails the same way. -/
theorem C3_features_fails_before_picker (ws : Workspace)
    (p1 p2 : MySkimOptions → Option SkimOutput) :
    exec ws .Features p1 = .error (.Panic "not implemented") ∧
    exec ws .Features p1 = exec ws .Features p2 ∧
    QueryTargets.Features.make_skim_options ws
      = .error (.Panic "not implemented") :=
  ⟨rfl, rfl, rfl⟩

/-- Claim C4: for Features the mapper joins all chosen strings with single
commas in selection order (no trailing separator); for every other
category a sole chosen string is returned unmodified. -/
theorem C4_mapper_output (q : QueryTargets) (items : List String) (x : String) :
    (q = .Features → convert_selected_items_to_string items
        = .ok (String.intercalate "," items)) ∧
    (q ≠ .Features → convert_selected_items_to_string [x] = .ok x) := by
  constructor
  · intro _
    rfl
  · intro _
    rfl

/-- Claim C4, witness at concrete inputs for both branches. -/
theorem C4_witness :
    convert_selected_items_to_string ["tls", "json"] = .ok "tls,json" ∧
    convert_selected_items_to_string ["client"] = .ok "client" :=
  ⟨(C4_mapper_output .Features ["tls", "json"] "x").1 rfl,
    (C4_mapper_output .Binaries [] "client").2 (by decide)⟩

/-- Claim C5: the implied build mode is Build for Binaries, Examples and
Profile, Test for Tests, Bench for Benches, and fails fast (the
`unimplemented!` panic) for Features. -/
theorem C5_implied_build_mode :
    CompileMode.from_query .Binaries = .ok .Build ∧
    CompileMode.from_query .Examples = .ok .Build ∧
    CompileMode.from_query .Profile = .ok .Build ∧
    CompileMode.from_query .Tests = .ok .Test ∧
    CompileMode.from_query .Benches = .ok .Bench ∧
    CompileMode.from_query .Features = .error (.Panic "not implemented") :=
  ⟨rfl, rfl, rfl, rfl, rfl, rfl⟩

/-- Claim C6: the membership predicate table is defined exactly for
Binaries, Examples, Tests and Benches (binary, example, test and bench
tests respectively) and fails for Features and Profile; and every name the
candidate enumeration returns comes from a workspace target satisfying the
supplied predicate. -/
theorem C6_membership_predicate (ws : Workspace) (pred : Target → Bool)
    (name : String) (h : name ∈ get_available_targets pred ws) :
    (QueryTargets.Binaries.as_target_pred = .ok Target.is_bin ∧
      QueryTargets.Examples.as_target_pred = .ok Target.is_example ∧
      QueryTargets.Tests.as_target_pred = .ok Target.is_test ∧
      QueryTargets.Benches.as_target_pred = .ok Target.is_bench ∧
      (∃ m, QueryTargets.Features.as_target_pred = .error (.Panic m)) ∧
      (∃ m, QueryTargets.Profile.as_target_pred = .error (.Panic m))) ∧
    ∃ t, t ∈ ws.targets ∧ pred t = true ∧ t.name = name := by
  refine ⟨⟨rfl, rfl, rfl, rfl, ⟨_, rfl⟩, ⟨_, rfl⟩⟩, ?_⟩
  simp only [get_available_targets, List.mem_map, List.mem_filter] at h
  obtain ⟨t, ⟨ht, hp⟩, hn⟩ := h
  exact ⟨t, ht, hp, hn⟩

/-- Claim C6, witness: the name server is enumerated for the binary
predicate on the concrete workspace, so the theorem applies there. -/
theorem C6_witness :
    "server" ∈ get_available_targets Target.is_bin wsEx ∧
    ∃ t, t ∈ wsEx.targets ∧ Target.is_bin t = true ∧ t.name = "server" :=
  ⟨by decide, (C6_membership_predicate wsEx Target.is_bin "server" (by decide)).2⟩

/-- Claim C7: a category allows multi-selection exactly when it is
Features, and the options handed to the skim session carry exactly that
flag. -/
theorem C7_multi_iff_features :
    (∀ q : QueryTargets, q.allows_multi = true ↔ q = .Features) ∧
    (∀ (q : QueryTargets) (ws : Workspace) (opts : MySkimOptions),
      q.make_skim_options ws = .ok opts → opts.allows_multi = q.allows_multi) := by
  constructor
  · intro q
    cases q <;> simp [QueryTargets.allows_multi]
  · intro q ws opts h
    rw [make_skim_options_eq] at h
    cases q <;> simp only [Except.map] at h <;> cases h <;> rfl

/-- Claim C7, witness: concrete instances of both conjuncts. -/
theorem C7_witness :
    (QueryTargets.Binaries.allows_multi = true ↔
      QueryTargets.Binaries = .Features) ∧
    optsBin.allows_multi = QueryTargets.Binaries.allows_multi :=
  ⟨C7_multi_iff_features.1 .Binaries,
    C7_multi_iff_features.2 .Binaries wsEx optsBin rfl⟩

/-- Claim C8: whenever the session can be configured at all, a picker that
fails to produce any result yields the internal skim error, which is a
different outcome from the one a user abort produces. -/
theorem C8_internal_ui_error (ws : Workspace) (q : QueryTargets)
    (opts : MySkimOptions) (h : q.make_skim_options ws = .ok opts)
    (items : List String) :
    fuzzy_choose ws q (fun _ => none) = .error (.Error "Internal skim error") ∧
    fuzzy_choose ws q (fun _ => some ⟨.EvActAbort, items⟩) = .ok [] ∧
    (Except.error (Failure.Error "Internal skim error") ≠
      (Except.ok [] : Except Failure (List String))) := by
  refine ⟨?_, ?_, by simp⟩
  · unfold fuzzy_choose
    rw [h]
    rfl
  · unfold fuzzy_choose
    rw [h]
    rfl

/-- Claim C8, witness at the concrete workspace and Binaries category. -/
theorem C8_witness :
    QueryTargets.Binaries.make_skim_options wsEx = .ok optsBin ∧
    (fuzzy_choose wsEx .Binaries (fun _ => none)
        = .error (.Error "Internal skim error") ∧
      fuzzy_choose wsEx .Binaries (fun _ => some ⟨.EvActAbort, []⟩) = .ok [] ∧
      (Except.error (Failure.Error "Internal skim error") ≠
        (Except.ok [] : Except Failure (List String)))) :=
  ⟨rfl, C8_internal_ui_error wsEx .Binaries optsBin rfl []⟩

/-- Claim C9, counterexample: the token Tests lowercases character-wise to
the valid token tests, yet the parser rejects it — parsing is not
case-insensitive. -/
theorem C9_counterexample :
    "Tests".data.map Char.toLower = "tests".data ∧
    QueryTargets.from_str "tests" = .ok .Tests ∧
    QueryTargets.from_str "Tests" = .error (.Error "Unknown type Tests") :=
  ⟨by decide, rfl, rfl⟩

/-- Claim C9, amended: the parser accepts exactly the six lowercase tokens
— it succeeds precisely on the exact string rendering of a category and
rejects every other string, including differently-cased variants
(case-insensitive acceptance exists only in the CLI argument-validation
layer, outside this parser). -/
theorem C9_parse_exact (s : String) (q : QueryTargets) :
    QueryTargets.from_str s = .ok q ↔ s = q.as_ref := by
  constructor
  · intro h
    unfold QueryTargets.from_str at h
    split at h <;> cases h <;> rfl
  · intro h
    subst h
    cases q <;> rfl

/-- Claim C9, witness for the amended theorem at a concrete token. -/
theorem C9_witness : QueryTargets.from_str "benches" = .ok .Benches :=
  (C9_parse_exact "benches" .Benches).mpr rfl

/-- Claim C10: parsing the string rendering of any category yields the
category back, for all six variants. -/
theorem C10_roundtrip (q : QueryTargets) :
    QueryTargets.from_str q.as_ref = .ok q := by
  cases q <;> rfl

end CargoQuery
